import Mathlib

/-!
Shallow embedding of the transcription core of the Deepgram-modular
repository: the two transcription API route handlers
(`src/app/api/transcribe/route.ts` and
`src/app/api/rounds/[roundId]/transcribe/route.ts`), the audio file
storage helpers (`src/lib/storage/files.ts`), and the Deliberation
Ontology builder.  Handlers are modelled as pure functions from an
environment (the outcomes of their collaborator calls) to a response
together with the ordered list of side effects they perform.
-/

namespace Deepgram

/-- Round lifecycle status, from `RoundStatus` in `@/types/round`
(values CREATED, RECORDING, PROCESSING, COMPLETED, ERROR per the spec's
round state machine). -/
inductive RoundStatus
  | created
  | recording
  | processing
  | completed
  | error
deriving DecidableEq, Repr

/-- A stored round record.  The `Round` type itself is not under `src/`;
fields follow the spec's data model (name, description, language, status,
artifact references, derived duration and speaker count, creation
timestamp).  `language` is `Option String` with `none` standing for a
JavaScript-falsy value (absent, null, or empty), which is exactly what
`round.language || 'en'` tests. -/
structure Round where
  id : String
  name : String
  description : String
  language : Option String
  status : RoundStatus
  audio_file : Option String
  transcription_file : Option String
  duration_seconds : Option ℚ
  speaker_count : Option Nat
  created_at : String
deriving DecidableEq, Repr

/-- One utterance of the diarized transcript: speaker label, start and
end time in seconds, text, confidence.  Times are ℚ, embedding the
JavaScript numbers. -/
structure Utterance where
  speaker : String
  start : ℚ
  «end» : ℚ
  text : String
  confidence : ℚ
deriving DecidableEq, Repr

/-- The top-level `results` container of a Deepgram response, reduced to
the utterance sequence the ontology builder works from (the builder's
paragraph/word-level fallback is abstracted as the already-extracted
segment sequence). -/
structure TranscriptResults where
  utterances : List Utterance
deriving DecidableEq, Repr

/-- A raw provider response after the handler's JSON round-trip
(`JSON.parse(JSON.stringify(result))`).  The handlers only inspect
whether the top-level `results` container is present before handing the
whole object to the builder. -/
structure RawTranscript where
  results : Option TranscriptResults
deriving DecidableEq, Repr

/-! ## Deliberation Ontology builder -/

/-- `metadata{filename, language}` of the ontology. -/
structure OntologyMetadata where
  filename : String
  language : String
deriving DecidableEq, Repr

/-- Per-speaker aggregate: total speaking time (sum of the speaker's own
segment durations, overlap preserved) and the indices of the speaker's
utterances. -/
structure SpeakerAgg where
  speaking_time : ℚ
  utterance_indices : List Nat
deriving DecidableEq, Repr

/-- `statistics{total_speakers, duration_seconds, word_count}` of the
ontology. -/
structure OntologyStatistics where
  total_speakers : Nat
  duration_seconds : ℚ
  word_count : Nat
deriving DecidableEq, Repr

/-- The normalized statistics-bearing record produced for a completed
round. -/
structure DeliberationOntology where
  metadata : OntologyMetadata
  speakers : List (String × SpeakerAgg)
  utterances : List Utterance
  statistics : OntologyStatistics
deriving DecidableEq, Repr

/-- Failure of the ontology builder. -/
inductive BuildError
  | malformedInput (message : String)
deriving DecidableEq, Repr

/-- Utterances ordered by start time. -/
def sortUtterances (us : List Utterance) : List Utterance :=
  List.insertionSort (fun a b => a.start ≤ b.start) us

/-- Distinct speaker labels in first-appearance order. -/
def distinctSpeakers (us : List Utterance) : List String :=
  (us.map (fun u => u.speaker)).dedup

/-- `max(utterance.end)`, `0` for an empty sequence. -/
def maxEnd (us : List Utterance) : ℚ :=
  ((us.map (fun u => u.«end»)).maximum).unbot' 0

/-- Total speaking time of one speaker: the sum of that speaker's own
segment durations (overlapping segments are not merged). -/
def speakerTime (us : List Utterance) (s : String) : ℚ :=
  ((us.filter (fun u => u.speaker == s)).map (fun u => u.«end» - u.start)).sum

/-- Indices of the utterances of one speaker. -/
def utteranceIndicesOf (us : List Utterance) (s : String) : List Nat :=
  (List.range us.length).filter
    (fun i => ((us.get? i).map (fun u => u.speaker)) == some s)

/-- Word count over the utterance texts. -/
def wordCountOf (us : List Utterance) : Nat :=
  (us.map (fun u => ((u.text.splitOn " ").filter (fun w => w ≠ "")).length)).sum

/-- Modelled from the spec: `createDeliberationOntology` of
`src/lib/deliberation/ontology.ts`, which is not under `src/`.  Per the
spec it is the pure function `build(rawTranscript, filename, language)`,
failing with MalformedInputError when the raw transcript lacks its
top-level `results` container, and otherwise producing the ontology with
utterances ordered by start time and *derived* statistics:
`duration_seconds = max(utterance.end)` (0 for an empty list) and
`total_speakers = |distinct speaker labels|`. -/
def createDeliberationOntology (raw : RawTranscript) (filename language : String) :
    Except BuildError DeliberationOntology :=
  match raw.results with
  | none => .error (.malformedInput "Transcript missing required results structure")
  | some res =>
    let us := sortUtterances res.utterances
    .ok
      { metadata := { filename := filename, language := language }
        speakers := (distinctSpeakers us).map
          (fun s => (s, { speaking_time := speakerTime us s
                          utterance_indices := utteranceIndicesOf us s }))
        utterances := us
        statistics :=
          { total_speakers := (distinctSpeakers us).length
            duration_seconds := maxEnd us
            word_count := wordCountOf us } }

/-! ## Audio file storage (`src/lib/storage/files.ts`) -/

/-- The fixed extension probe order of `audioFileExists`. -/
def audioExtensions : List String := ["webm", "mp3", "wav", "ogg"]

/-- `saveAudioFile(roundId, buffer, extension)`: writes
`{roundId}.{extension}` into the audio directory (modelled as the set of
file names present there) and returns `/audio/{filename}`.  The buffer
contents are irrelevant to the claims about path resolution. -/
def saveAudioFile (files : Finset String) (roundId extension : String) :
    Finset String × String :=
  let filename := roundId ++ "." ++ extension
  (insert filename files, "/audio/" ++ filename)

/-- `audioFileExists(roundId)`: probes `{roundId}.{ext}` for
`ext ∈ [webm, mp3, wav, ogg]` in that order and returns
`/audio/{roundId}.{ext}` for the first hit, `null` when none exists. -/
def audioFileExists (files : Finset String) (roundId : String) : Option String :=
  match audioExtensions.find? (fun ext => decide ((roundId ++ "." ++ ext) ∈ files)) with
  | some ext => some ("/audio/" ++ roundId ++ "." ++ ext)
  | none => none

/-! ## Transcription route handlers

Each handler is embedded as a pure function from an environment — the
outcomes of its collaborator calls (`getRound`, `audioFileExists`,
`fs.readFile`, the Deepgram SDK, `saveTranscription`, `updateRound`) —
to the HTTP response together with the ordered list of side effects the
handler performs.  A collaborator that can throw is given an
`Option String` outcome in the environment: `some m` means the call
throws an `Error` with message `m`. -/

/-- The patch argument of `updateRound(roundId, patch)`: every field the
two transcribe routes ever write; `none` means the field is absent from
the patch (not written). -/
structure RoundPatch where
  status : Option RoundStatus := none
  audio_file : Option String := none
  transcription_file : Option String := none
  duration_seconds : Option ℚ := none
  speaker_count : Option Nat := none
deriving DecidableEq, Repr

/-- One observable side effect of a handler, in program order.  An
`updateRound` or `saveTranscription` effect records the *attempt*; the
environment separately decides whether the call throws. -/
inductive Effect
  | getRound (id : String)
  | audioCheck (id : String)
  | updateRound (id : String) (patch : RoundPatch)
  | readAudio (path : String)
  | providerCall (language : String)
  | saveTranscription (id : String) (raw : RawTranscript) (delib : DeliberationOntology)
  | logWarn (msg : String)
deriving DecidableEq, Repr

/-- A thrown JavaScript `Error`: message plus stack trace.  Every throw
site in the two handlers constructs `new Error(message)`, whose `stack`
begins with the message followed by frame lines. -/
structure JsError where
  message : String
  stack : String
deriving DecidableEq, Repr

/-- `new Error(msg)` — the stack trace contains the message and the
call-frame lines. -/
def mkJsError (msg : String) : JsError :=
  { message := msg, stack := "Error: " ++ msg ++ "\n    at POST (route.ts)" }

/-- Body of a JSON error response: `{ error, details }` where `details`
is present only when the route chooses to include it. -/
structure ErrorBody where
  error : String
  details : Option String
deriving DecidableEq, Repr

/-- A handler response: an error response with HTTP status and body, or
the success payload `{ success, roundId, deliberation, message }`. -/
inductive ApiResponse
  | err (status : Nat) (body : ErrorBody)
  | ok (roundId : String) (deliberation : DeliberationOntology) (message : String)
deriving DecidableEq, Repr

/-- Outcome of `deepgram.listen.prerecorded.transcribeFile`: the SDK
returns `{ result, error }`. -/
inductive ProviderOutcome
  | apiError (message : String)
  | nullResult
  | ok (raw : RawTranscript)
deriving DecidableEq, Repr

/-- Character-list worker for `basename`: scans left to right, resetting
the accumulator at each `/`, so the final accumulator is the last
`/`-separated component (reversed). -/
def basenameAux : List Char → List Char → List Char
  | [], acc => acc.reverse
  | c :: cs, acc => if c = '/' then basenameAux cs [] else basenameAux cs (c :: acc)

/-- `path.basename`: the last `/`-separated component. -/
def basename (p : String) : String :=
  ⟨basenameAux p.data []⟩

/-! ### Round-specific route (`src/app/api/rounds/[roundId]/transcribe/route.ts`) -/

/-- Environment of one invocation of the round-specific POST handler:
outcomes of every collaborator call it can make. -/
structure RoundEnv where
  /-- `getRound(roundId)` result. -/
  round : Option Round
  /-- `audioFileExists(roundId)` result. -/
  audioPath : Option String
  /-- `updateRound(roundId, {status: PROCESSING})` throws? -/
  procUpdateError : Option String
  /-- `fs.readFile` throws? -/
  readFileError : Option String
  /-- `process.env.DEEPGRAM_API_KEY` is set? -/
  apiKeyPresent : Bool
  /-- Deepgram SDK outcome. -/
  provider : ProviderOutcome
  /-- `saveTranscription` throws? -/
  saveError : Option String
  /-- final `updateRound(roundId, {status: COMPLETED, ...})` throws? -/
  completedUpdateError : Option String
  /-- catch-block `updateRound(roundId, {status: ERROR})` throws? -/
  errorUpdateFails : Bool
deriving DecidableEq, Repr

/-- The orchestration section of the round handler, entered after the
round-exists and audio-exists guards: set status PROCESSING, read the
audio file, call Deepgram, validate the shape, build the ontology, save
both transcripts, set status COMPLETED.  Returns `Except.error e` where
the source throws `e`. -/
def roundOrchestrate (env : RoundEnv) (roundId audioPath language : String) :
    Except JsError ApiResponse × List Effect :=
  let effs0 : List Effect :=
    [.getRound roundId, .audioCheck roundId,
     .updateRound roundId { status := some .processing }]
  match env.procUpdateError with
  | some m => (.error (mkJsError m), effs0)
  | none =>
    match env.readFileError with
    | some m => (.error (mkJsError m), effs0 ++ [.readAudio audioPath])
    | none =>
      let effs1 := effs0 ++ [.readAudio audioPath]
      if env.apiKeyPresent = false then
        (.error (mkJsError "DEEPGRAM_API_KEY not configured in environment variables"),
         effs1)
      else
        let effs2 := effs1 ++ [.providerCall language]
        match env.provider with
        | .apiError m =>
          (.error (mkJsError ("Deepgram API error: " ++ m)), effs2)
        | .nullResult =>
          (.error (mkJsError "Deepgram API returned null result"), effs2)
        | .ok raw =>
          -- `JSON.parse(JSON.stringify(result))` is the identity on plain data
          match raw.results with
          | none =>
            (.error (mkJsError "Invalid response from Deepgram API"), effs2)
          | some _ =>
            match createDeliberationOntology raw (basename audioPath) language with
            | .error (.malformedInput m) => (.error (mkJsError m), effs2)
            | .ok delib =>
              let effs3 := effs2 ++ [.saveTranscription roundId raw delib]
              match env.saveError with
              | some m => (.error (mkJsError m), effs3)
              | none =>
                let completedPatch : RoundPatch :=
                  { status := some .completed
                    audio_file := some audioPath
                    transcription_file := some (roundId ++ "_deliberation.json")
                    duration_seconds := some delib.statistics.duration_seconds
                    speaker_count := some delib.statistics.total_speakers }
                let effs4 := effs3 ++ [.updateRound roundId completedPatch]
                match env.completedUpdateError with
                | some m => (.error (mkJsError m), effs4)
                | none =>
                  (.ok (.ok roundId delib "Transcription completed successfully"), effs4)

/-- The `try` block of the round-specific POST handler: the two guard
checks (round exists, audio file exists) return 404 responses directly;
everything after runs `roundOrchestrate` with
`language = round.language || 'en'`. -/
def roundTryBody (env : RoundEnv) (roundId : String) :
    Except JsError ApiResponse × List Effect :=
  match env.round with
  | none =>
    (.ok (.err 404 { error := "Round not found", details := none }),
     [.getRound roundId])
  | some round =>
    match env.audioPath with
    | none =>
      (.ok (.err 404 { error := "Audio file not found. Recording may not have completed yet."
                       details := none }),
       [.getRound roundId, .audioCheck roundId])
    | some audioPath =>
      roundOrchestrate env roundId audioPath ((round.language).getD "en")

/-- `POST /api/rounds/{roundId}/transcribe`: the try body, and on a
thrown error the catch block — a best-effort
`updateRound(roundId, {status: ERROR})` (a warning is logged when that
itself throws) followed by the 500 response
`{ error: e.message, details: e.stack }`. -/
def roundTranscribePOST (env : RoundEnv) (roundId : String) :
    ApiResponse × List Effect :=
  match roundTryBody env roundId with
  | (.ok resp, effs) => (resp, effs)
  | (.error e, effs) =>
    let effs2 := effs ++ [.updateRound roundId { status := some .error }]
    let effs3 :=
      if env.errorUpdateFails then effs2 ++ [.logWarn "Failed to update round status"]
      else effs2
    (.err 500 { error := e.message, details := some e.stack }, effs3)

/-! ### Generic route (`src/app/api/transcribe/route.ts`) -/

/-- Environment of one invocation of the generic POST handler.  The
catch block's `request.clone().formData()` needs no outcome here: the
try block's first statement already consumed the request body, so per
Fetch semantics `request.clone()` always throws a TypeError in the
catch — see `genericTranscribePOST`. -/
structure GenericEnv where
  /-- the try block's `request.formData()` throws? -/
  formDataError : Option String
  /-- an `audio` entry is present in the form data? -/
  audioFilePresent : Bool
  /-- the `roundId` form field; `none` for a JavaScript-falsy value. -/
  roundId : Option String
  /-- the resolved filename: `formData.get('filename') || audioFile?.name
  || 'audio'`. -/
  filename : String
  /-- `updateRound(roundId, {status: PROCESSING})` throws? -/
  procUpdateError : Option String
  /-- `process.env.DEEPGRAM_API_KEY` is set? -/
  apiKeyPresent : Bool
  /-- Deepgram SDK outcome. -/
  provider : ProviderOutcome
  /-- `saveTranscription` throws? -/
  saveError : Option String
  /-- final `updateRound(roundId, {status: COMPLETED, ...})` throws? -/
  completedUpdateError : Option String
deriving DecidableEq, Repr

/-- Orchestration section of the generic handler, entered after the
audio-present and roundId-present guards: set status PROCESSING, call
Deepgram with `language: 'en'` fixed, validate, build the ontology, save
both transcripts, set status COMPLETED.  Unlike the round-specific
route, the COMPLETED patch carries no `audio_file` field. -/
def genericOrchestrate (env : GenericEnv) (roundId : String) :
    Except JsError ApiResponse × List Effect :=
  let effs0 : List Effect := [.updateRound roundId { status := some .processing }]
  match env.procUpdateError with
  | some m => (.error (mkJsError m), effs0)
  | none =>
    if env.apiKeyPresent = false then
      (.error (mkJsError "DEEPGRAM_API_KEY not configured in environment variables"),
       effs0)
    else
      -- `audioFile.arrayBuffer()`/`Buffer.from` are pure data conversions
      let effs1 := effs0 ++ [.providerCall "en"]
      match env.provider with
      | .apiError m =>
        (.error (mkJsError ("Deepgram API error: " ++ m)), effs1)
      | .nullResult =>
        (.error (mkJsError "Deepgram API returned null result"), effs1)
      | .ok raw =>
        match raw.results with
        | none =>
          (.error (mkJsError "Invalid response from Deepgram API"), effs1)
        | some _ =>
          match createDeliberationOntology raw env.filename "en" with
          | .error (.malformedInput m) => (.error (mkJsError m), effs1)
          | .ok delib =>
            let effs2 := effs1 ++ [.saveTranscription roundId raw delib]
            match env.saveError with
            | some m => (.error (mkJsError m), effs2)
            | none =>
              let completedPatch : RoundPatch :=
                { status := some .completed
                  transcription_file := some (roundId ++ "_deliberation.json")
                  duration_seconds := some delib.statistics.duration_seconds
                  speaker_count := some delib.statistics.total_speakers }
              let effs3 := effs2 ++ [.updateRound roundId completedPatch]
              match env.completedUpdateError with
              | some m => (.error (mkJsError m), effs3)
              | none =>
                (.ok (.ok roundId delib "Transcription completed successfully"), effs3)

/-- The `try` block of the generic POST handler: parse the form data,
guard on the audio file (400) and the round id (400), then orchestrate. -/
def genericTryBody (env : GenericEnv) :
    Except JsError ApiResponse × List Effect :=
  match env.formDataError with
  | some m => (.error (mkJsError m), [])
  | none =>
    if env.audioFilePresent = false then
      (.ok (.err 400 { error := "No audio file provided", details := none }), [])
    else
      match env.roundId with
      | none =>
        (.ok (.err 400 { error := "Round ID is required", details := none }), [])
      | some roundId => genericOrchestrate env roundId

/-- `POST /api/transcribe`: the try body, and on a thrown error the
catch block.  The catch block first runs
`await request.clone().formData()` to recover the round id — but the
try block's opening `await request.formData()` already consumed the
request body, so `request.clone()` throws a TypeError here on every
invocation.  That throw lands in the inner `catch (updateError)`, which
only logs a warning; the `updateRound(roundId, {status: ERROR})` call
that follows the re-parse is therefore unreachable.  The handler then
returns the 500 response `{ error: e.message, details: e.stack }`. -/
def genericTranscribePOST (env : GenericEnv) : ApiResponse × List Effect :=
  match genericTryBody env with
  | (.ok resp, effs) => (resp, effs)
  | (.error e, effs) =>
    (.err 500 { error := e.message, details := some e.stack },
     effs ++ [.logWarn "Failed to update round status"])

/-! ### Helper observations on responses and effects -/

/-- The response is the success payload. -/
def isSuccessResp : ApiResponse → Bool
  | .ok _ _ _ => true
  | .err _ _ => false

/-- HTTP status of a response (200 for the success payload). -/
def httpStatusOf : ApiResponse → Nat
  | .err s _ => s
  | .ok _ _ _ => 200

/-- The effect is an `updateRound` whose patch sets status to ERROR. -/
def setsStatusError : Effect → Bool
  | .updateRound _ patch =>
    match patch.status with
    | some .error => true
    | _ => false
  | _ => false

/-- The effect is a `saveTranscription`. -/
def isSaveTranscription : Effect → Bool
  | .saveTranscription _ _ _ => true
  | _ => false

/-- The effect is a `providerCall`. -/
def isProviderCall : Effect → Bool
  | .providerCall _ => true
  | _ => false

/-! ### Concrete fixtures used by witnesses and counterexamples -/

/-- A provider response whose `results` container holds no utterances. -/
def rawEmpty : RawTranscript := { results := some { utterances := [] } }

/-- A provider response lacking the top-level `results` container. -/
def rawNoResults : RawTranscript := { results := none }

/-- The ontology built from `rawEmpty` for file `r1.webm`, language
`en`. -/
def ontologyEmpty : DeliberationOntology :=
  { metadata := { filename := "r1.webm", language := "en" }
    speakers := []
    utterances := []
    statistics := { total_speakers := 0, duration_seconds := 0, word_count := 0 } }

/-- A stored round currently in PROCESSING with an audio artifact. -/
def roundProcessing : Round :=
  { id := "r1", name := "Round 1", description := "", language := none
    status := .processing, audio_file := some "/audio/r1.webm"
    transcription_file := none, duration_seconds := none, speaker_count := none
    created_at := "2025-01-01T00:00:00Z" }

/-- A freshly created round with a French language setting. -/
def roundFrench : Round :=
  { id := "r2", name := "Round 2", description := "", language := some "fr"
    status := .created, audio_file := some "/audio/r2.webm"
    transcription_file := none, duration_seconds := none, speaker_count := none
    created_at := "2025-01-01T00:00:00Z" }

/-- Round-route environment: the round is already PROCESSING, audio is
present, and every collaborator succeeds. -/
def envProcessingOk : RoundEnv :=
  { round := some roundProcessing, audioPath := some "/audio/r1.webm"
    procUpdateError := none, readFileError := none, apiKeyPresent := true
    provider := .ok rawEmpty, saveError := none, completedUpdateError := none
    errorUpdateFails := false }

/-- Round-route environment: no stored round. -/
def envNoRound : RoundEnv :=
  { round := none, audioPath := none
    procUpdateError := none, readFileError := none, apiKeyPresent := true
    provider := .ok rawEmpty, saveError := none, completedUpdateError := none
    errorUpdateFails := false }

/-- Round-route environment: the round exists but no audio artifact. -/
def envNoAudio : RoundEnv :=
  { round := some roundFrench, audioPath := none
    procUpdateError := none, readFileError := none, apiKeyPresent := true
    provider := .ok rawEmpty, saveError := none, completedUpdateError := none
    errorUpdateFails := false }

/-- Round-route environment: round and audio present but the Deepgram
API key is missing, so the handler throws mid-orchestration. -/
def envNoApiKey : RoundEnv :=
  { round := some roundProcessing, audioPath := some "/audio/r1.webm"
    procUpdateError := none, readFileError := none, apiKeyPresent := false
    provider := .ok rawEmpty, saveError := none, completedUpdateError := none
    errorUpdateFails := false }

/-- Round-route environment: the provider responds without a `results`
container. -/
def envMalformed : RoundEnv :=
  { round := some roundProcessing, audioPath := some "/audio/r1.webm"
    procUpdateError := none, readFileError := none, apiKeyPresent := true
    provider := .ok rawNoResults, saveError := none, completedUpdateError := none
    errorUpdateFails := false }

/-- Round-route environment: the French round with every collaborator
succeeding. -/
def envFrenchOk : RoundEnv :=
  { round := some roundFrench, audioPath := some "/audio/r2.webm"
    procUpdateError := none, readFileError := none, apiKeyPresent := true
    provider := .ok rawEmpty, saveError := none, completedUpdateError := none
    errorUpdateFails := false }

/-- The error body produced when the API key is missing. -/
def bodyNoApiKey : ErrorBody :=
  { error := "DEEPGRAM_API_KEY not configured in environment variables"
    details := some
      "Error: DEEPGRAM_API_KEY not configured in environment variables\n    at POST (route.ts)" }

/-- Generic-route environment where every collaborator succeeds. -/
def genEnvOk : GenericEnv :=
  { formDataError := none, audioFilePresent := true, roundId := some "r1"
    filename := "audio", procUpdateError := none, apiKeyPresent := true
    provider := .ok rawEmpty, saveError := none, completedUpdateError := none }

/-- Generic-route environment: the form data parsed (audio and round id
present) but the Deepgram API key is missing, so orchestration begins
and then throws. -/
def genEnvNoKey : GenericEnv :=
  { formDataError := none, audioFilePresent := true, roundId := some "r1"
    filename := "audio", procUpdateError := none, apiKeyPresent := false
    provider := .ok rawEmpty, saveError := none, completedUpdateError := none }

/-! ## Theorems -/

/-- A `find?` hit is the first list element, in list order, satisfying
the predicate: every element at a strictly smaller index fails it. -/
lemma find?_first_index {α : Type} [DecidableEq α] {l : List α} {p : α → Bool} {e : α}
    (hnd : l.Nodup) (h : l.find? p = some e) :
    ∀ e2 ∈ l, l.indexOf e2 < l.indexOf e → p e2 = false := by
  rw [List.find?_eq_some] at h
  obtain ⟨hpe, as, bs, hsplit, hfail⟩ := h
  subst hsplit
  have hnd' := List.nodup_append.mp hnd
  have he_as : e ∉ as := fun hmem => hnd'.2.2 hmem (List.mem_cons_self e bs)
  have hidx_e : (as ++ e :: bs).indexOf e = as.length := by
    rw [List.indexOf_append_of_not_mem he_as, List.indexOf_cons_self]
    rfl
  intro e2 he2 hlt
  rw [hidx_e] at hlt
  have he2_as : e2 ∈ as := by
    by_contra hne
    rw [List.indexOf_append_of_not_mem hne] at hlt
    omega
  simpa using hfail e2 he2_as

/-- C9: after `saveAudioFile(roundId, buffer, ext)` succeeds for one of
the four known extensions, `audioFileExists(roundId)` is non-null;
`audioFileExists` returns null exactly when no file with any of the four
extensions exists; and every non-null result is `/audio/{roundId}.{ext}`
for the first extension, in the fixed order webm, mp3, wav, ogg, whose
file exists. -/
theorem audioFileExists_first_extension_spec
    (files : Finset String) (rid ext : String) (hext : ext ∈ audioExtensions) :
    (audioFileExists (saveAudioFile files rid ext).1 rid ≠ none) ∧
    (audioFileExists files rid = none ↔
      ∀ e ∈ audioExtensions, (rid ++ "." ++ e) ∉ files) ∧
    (∀ p, audioFileExists files rid = some p →
      ∃ e ∈ audioExtensions, p = "/audio/" ++ rid ++ "." ++ e ∧
        (rid ++ "." ++ e) ∈ files ∧
        ∀ e2 ∈ audioExtensions,
          audioExtensions.indexOf e2 < audioExtensions.indexOf e →
            (rid ++ "." ++ e2) ∉ files) := by
  refine ⟨?_, ?_, ?_⟩
  · have hmem : (rid ++ "." ++ ext) ∈ (saveAudioFile files rid ext).1 := by
      simp [saveAudioFile]
    unfold audioFileExists
    split
    · simp
    · next hfind =>
      rw [List.find?_eq_none] at hfind
      exact absurd (by simpa using hmem) (by simpa using hfind ext hext)
  · unfold audioFileExists
    split
    · next e hfind =>
      constructor
      · intro h; exact absurd h (by simp)
      · intro hall
        have he := List.mem_of_find?_eq_some hfind
        have hp := List.find?_some hfind
        exact absurd (of_decide_eq_true hp) (hall e he)
    · next hfind =>
      rw [List.find?_eq_none] at hfind
      constructor
      · intro _ e he hmem
        exact absurd (by simpa using hmem) (by simpa using hfind e he)
      · intro _; rfl
  · intro p hp
    unfold audioFileExists at hp
    split at hp
    · next e hfind =>
      obtain rfl : "/audio/" ++ rid ++ "." ++ e = p := Option.some.inj hp
      have hpe := List.find?_some hfind
      refine ⟨e, List.mem_of_find?_eq_some hfind, rfl, of_decide_eq_true hpe, ?_⟩
      intro e2 he2 hlt
      have hnd : audioExtensions.Nodup := by decide
      have := find?_first_index hnd hfind e2 he2 hlt
      simpa using this
    · exact absurd hp (by simp)

/-- C9 witness: saving `r1.webm` into an empty audio directory makes
`audioFileExists` return `/audio/r1.webm`. -/
theorem audioFileExists_first_extension_spec_witness :
    ("webm" ∈ audioExtensions) ∧
    (audioFileExists (saveAudioFile ∅ "r1" "webm").1 "r1" ≠ none) :=
  ⟨by decide,
   (audioFileExists_first_extension_spec ∅ "r1" "webm" (by decide)).1⟩

/-- C7: whenever the builder accepts a raw transcript, the returned
statistics are derived from the ontology's utterance sequence —
`duration_seconds` is the maximum utterance end time (0 when there are
no utterances) and `total_speakers` is the number of distinct speaker
labels; in particular a valid transcript with an empty utterance list is
accepted and yields `duration_seconds = 0` and `total_speakers = 0`. -/
theorem ontology_statistics_derived (raw : RawTranscript) (fn lang : String) :
    (∀ d, createDeliberationOntology raw fn lang = .ok d →
      (∀ u ∈ d.utterances, u.«end» ≤ d.statistics.duration_seconds) ∧
      (d.utterances = [] → d.statistics.duration_seconds = 0) ∧
      (d.utterances ≠ [] → ∃ u ∈ d.utterances, u.«end» = d.statistics.duration_seconds) ∧
      d.statistics.total_speakers = (d.utterances.map (fun u => u.speaker)).toFinset.card) ∧
    (raw.results = some { utterances := [] } →
      ∃ d, createDeliberationOntology raw fn lang = .ok d ∧
        d.statistics.duration_seconds = 0 ∧ d.statistics.total_speakers = 0) := by
  constructor
  · intro d hd
    cases hres : raw.results with
    | none => simp [createDeliberationOntology, hres] at hd
    | some res =>
      rw [createDeliberationOntology, hres] at hd
      obtain rfl := (Except.ok.inj hd).symm
      refine ⟨?_, ?_, ?_, ?_⟩
      · intro u hu
        have hm : u.«end» ∈ (sortUtterances res.utterances).map (fun u => u.«end») :=
          List.mem_map_of_mem _ hu
        have hle := List.le_maximum_of_mem' hm
        show u.«end» ≤ maxEnd (sortUtterances res.utterances)
        unfold maxEnd
        cases hmax : ((sortUtterances res.utterances).map (fun u => u.«end»)).maximum with
        | bot =>
          rw [List.maximum_eq_bot] at hmax
          simp [hmax] at hm
        | coe m =>
          rw [hmax] at hle
          simpa using hle
      · intro hnil
        show maxEnd (sortUtterances res.utterances) = 0
        unfold maxEnd
        rw [show sortUtterances res.utterances = [] from hnil]
        rfl
      · intro hne
        show ∃ u ∈ sortUtterances res.utterances,
          u.«end» = maxEnd (sortUtterances res.utterances)
        unfold maxEnd
        cases hmax : ((sortUtterances res.utterances).map (fun u => u.«end»)).maximum with
        | bot =>
          rw [List.maximum_eq_bot, List.map_eq_nil_iff] at hmax
          exact absurd hmax hne
        | coe m =>
          have hmem := List.maximum_mem hmax
          obtain ⟨u, hu, hum⟩ := List.mem_map.mp hmem
          exact ⟨u, hu, by simp [hum]⟩
      · show (distinctSpeakers (sortUtterances res.utterances)).length = _
        rw [distinctSpeakers, ← List.card_toFinset]
  · intro hres
    refine ⟨_, by rw [createDeliberationOntology, hres], ?_, ?_⟩
    · show maxEnd (sortUtterances []) = 0
      rfl
    · show (distinctSpeakers (sortUtterances [])).length = 0
      rfl

/-- C7 witness: the builder accepts the concrete empty-utterance
transcript and returns zero duration and zero speakers. -/
theorem ontology_statistics_derived_witness :
    rawEmpty.results = some { utterances := [] } ∧
    ∃ d, createDeliberationOntology rawEmpty "f.webm" "en" = .ok d ∧
      d.statistics.duration_seconds = 0 ∧ d.statistics.total_speakers = 0 :=
  ⟨rfl, (ontology_statistics_derived rawEmpty "f.webm" "en").2 rfl⟩

/-! ### Structural lemmas about the round-specific handler -/

/-- Every error thrown inside the round-route try body is a
`new Error(message)`. -/
lemma roundTryBody_error_shape (env : RoundEnv) (rid : String) :
    ∀ e effs, roundTryBody env rid = (.error e, effs) → ∃ m, e = mkJsError m := by
  intro e effs h
  unfold roundTryBody roundOrchestrate at h
  repeat' split at h
  all_goals injection h with h1 h2
  all_goals first
    | (injection h1 with h1; exact ⟨_, h1.symm⟩)
    | injection h1

/-- Every direct (non-thrown) response of the round-route try body is
one of the two 404 guard responses or the success payload. -/
lemma roundTryBody_ok_shape (env : RoundEnv) (rid : String) :
    ∀ resp effs, roundTryBody env rid = (.ok resp, effs) →
      resp = .err 404 { error := "Round not found", details := none } ∨
      resp = .err 404 { error := "Audio file not found. Recording may not have completed yet."
                        details := none } ∨
      ∃ d, resp = .ok rid d "Transcription completed successfully" := by
  intro resp effs h
  unfold roundTryBody roundOrchestrate at h
  repeat' split at h
  all_goals injection h with h1 h2
  all_goals first
    | (injection h1 with h1
       first
         | exact Or.inl h1.symm
         | exact Or.inr (Or.inl h1.symm)
         | exact Or.inr (Or.inr ⟨_, h1.symm⟩))
    | injection h1

/-- The round-route try body never emits an `updateRound` whose patch
sets status ERROR. -/
lemma roundTryBody_no_error_update (env : RoundEnv) (rid : String) :
    ((roundTryBody env rid).2).countP setsStatusError = 0 := by
  unfold roundTryBody roundOrchestrate
  repeat' split
  all_goals simp [setsStatusError]

/-- The first three effects of the orchestration section are the two
guards' reads followed by the PROCESSING status update. -/
lemma roundOrchestrate_trace_head (env : RoundEnv) (rid p lang : String) :
    ((roundOrchestrate env rid p lang).2).take 3 =
      [.getRound rid, .audioCheck rid, .updateRound rid { status := some .processing }] := by
  unfold roundOrchestrate
  repeat' split
  all_goals rfl

/-- Every `providerCall` in the orchestration trace carries the language
the orchestrator was invoked with. -/
lemma roundOrchestrate_providerCall (env : RoundEnv) (rid p lang : String) :
    ∀ l, Effect.providerCall l ∈ (roundOrchestrate env rid p lang).2 → l = lang := by
  intro l hm
  unfold roundOrchestrate at hm
  repeat' split at hm
  all_goals simp_all

/-! ### Structural lemmas about the generic handler -/

/-- Every error thrown inside the generic-route try body is a
`new Error(message)`. -/
lemma genericTryBody_error_shape (env : GenericEnv) :
    ∀ e effs, genericTryBody env = (.error e, effs) → ∃ m, e = mkJsError m := by
  intro e effs h
  unfold genericTryBody genericOrchestrate at h
  repeat' split at h
  all_goals injection h with h1 h2
  all_goals first
    | (injection h1 with h1; exact ⟨_, h1.symm⟩)
    | injection h1

/-- Every direct (non-thrown) response of the generic-route try body is
one of the two 400 guard responses or the success payload. -/
lemma genericTryBody_ok_shape (env : GenericEnv) :
    ∀ resp effs, genericTryBody env = (.ok resp, effs) →
      resp = .err 400 { error := "No audio file provided", details := none } ∨
      resp = .err 400 { error := "Round ID is required", details := none } ∨
      ∃ rid d, resp = .ok rid d "Transcription completed successfully" := by
  intro resp effs h
  unfold genericTryBody genericOrchestrate at h
  repeat' split at h
  all_goals injection h with h1 h2
  all_goals first
    | (injection h1 with h1
       first
         | exact Or.inl h1.symm
         | exact Or.inr (Or.inl h1.symm)
         | exact Or.inr (Or.inr ⟨_, _, h1.symm⟩))
    | injection h1

/-- The generic-route try body never emits an `updateRound` whose patch
sets status ERROR. -/
lemma genericTryBody_no_error_update (env : GenericEnv) :
    ((genericTryBody env).2).countP setsStatusError = 0 := by
  unfold genericTryBody genericOrchestrate
  repeat' split
  all_goals simp [setsStatusError]

/-- Every `providerCall` in the generic try body's trace carries the
fixed language `'en'`. -/
lemma genericTryBody_providerCall (env : GenericEnv) :
    ∀ l, Effect.providerCall l ∈ (genericTryBody env).2 → l = "en" := by
  intro l hm
  unfold genericTryBody genericOrchestrate at hm
  repeat' split at hm
  all_goals simp_all

/-- Effects of the try body are effects of the whole handler. -/
lemma mem_roundPOST_of_mem_tryBody (env : RoundEnv) (rid : String) :
    ∀ e, e ∈ (roundTryBody env rid).2 → e ∈ (roundTranscribePOST env rid).2 := by
  intro e he
  unfold roundTranscribePOST
  rcases hb : roundTryBody env rid with ⟨res, effs⟩
  rw [hb] at he
  cases res with
  | ok resp => simpa using he
  | error err =>
    repeat' split
    all_goals simp_all

/-- Effects of the generic try body are effects of the whole generic
handler. -/
lemma mem_genericPOST_of_mem_tryBody (env : GenericEnv) :
    ∀ e, e ∈ (genericTryBody env).2 → e ∈ (genericTranscribePOST env).2 := by
  intro e he
  unfold genericTranscribePOST
  rcases hb : genericTryBody env with ⟨res, effs⟩
  rw [hb] at he
  cases res with
  | ok resp => simpa using he
  | error err =>
    repeat' split
    all_goals simp_all

/-- C1 counterexample: with the stored round already in PROCESSING and
its audio artifact present, invoking the trigger does not fail with any
precondition error — the handler succeeds and writes status PROCESSING
again, so the round's status is not left unchanged. -/
theorem trigger_while_processing_succeeds_cex :
    roundProcessing.status = RoundStatus.processing ∧
    isSuccessResp (roundTranscribePOST envProcessingOk "r1").1 = true ∧
    Effect.updateRound "r1" { status := some .processing } ∈
      (roundTranscribePOST envProcessingOk "r1").2 := by
  refine ⟨rfl, ?_, ?_⟩ <;> decide

/-- C1 (amended): the trigger performs no status-based precondition
check at all: its outcome is identical for every stored status of the
round — in particular a round already in PROCESSING is handled exactly
like any other — and whenever the two existence guards pass, the handler
(re)writes status PROCESSING and proceeds rather than rejecting. -/
theorem trigger_ignores_round_status (env : RoundEnv) (rid : String)
    (r : Round) (s : RoundStatus) (h : env.round = some r) :
    roundTranscribePOST { env with round := some { r with status := s } } rid =
      roundTranscribePOST env rid ∧
    (∀ p, env.audioPath = some p →
      Effect.updateRound rid { status := some .processing } ∈
        (roundTranscribePOST env rid).2) := by
  constructor
  · have hb : roundTryBody { env with round := some { r with status := s } } rid
        = roundTryBody env rid := by
      simp only [roundTryBody, h]
      cases env.audioPath <;> rfl
    unfold roundTranscribePOST
    rw [hb]
  · intro p hp
    apply mem_roundPOST_of_mem_tryBody
    have htake := roundOrchestrate_trace_head env rid p ((r.language).getD "en")
    have h3 : Effect.updateRound rid { status := some .processing } ∈
        ((roundOrchestrate env rid p ((r.language).getD "en")).2).take 3 := by
      rw [htake]; simp
    have hmem := List.mem_of_mem_take h3
    simp only [roundTryBody, h, hp]
    exact hmem

/-- C1 amended-claim witness at a concrete input: changing the stored
status of the PROCESSING round leaves the handler's outcome unchanged,
and the PROCESSING write occurs. -/
theorem trigger_ignores_round_status_witness :
    (roundTranscribePOST
        { envProcessingOk with round := some { roundProcessing with status := .completed } } "r1" =
      roundTranscribePOST envProcessingOk "r1") ∧
    Effect.updateRound "r1" { status := some .processing } ∈
      (roundTranscribePOST envProcessingOk "r1").2 :=
  ⟨(trigger_ignores_round_status envProcessingOk "r1" roundProcessing .completed rfl).1,
   (trigger_ignores_round_status envProcessingOk "r1" roundProcessing .completed rfl).2
     "/audio/r1.webm" rfl⟩

/-- C6 counterexample: an existing round with no audio artifact is
rejected with the same HTTP 404 not-found kind as an unknown round, not
with a distinct PreconditionError kind. -/
theorem missing_audio_not_found_cex :
    (roundTranscribePOST envNoRound "rX").1 =
      .err 404 { error := "Round not found", details := none } ∧
    (roundTranscribePOST envNoAudio "r2").1 =
      .err 404 { error := "Audio file not found. Recording may not have completed yet."
                 details := none } ∧
    httpStatusOf (roundTranscribePOST envNoAudio "r2").1 =
      httpStatusOf (roundTranscribePOST envNoRound "rX").1 :=
  ⟨rfl, rfl, rfl⟩

/-- C6 (amended): triggering for an unknown round fails with the 404
not-found response `Round not found`, and triggering for an existing
round with no audio artifact fails with the 404 not-found response
`Audio file not found…` — the same not-found kind, not a distinct
precondition kind; in both cases the handler returns before the
diarization provider is invoked and before any status update (the trace
holds only the failed reads). -/
theorem guard_failures_before_side_effects (env : RoundEnv) (rid : String) :
    (env.round = none →
      roundTranscribePOST env rid =
        (.err 404 { error := "Round not found", details := none }, [.getRound rid])) ∧
    (∀ r, env.round = some r → env.audioPath = none →
      roundTranscribePOST env rid =
        (.err 404 { error := "Audio file not found. Recording may not have completed yet."
                    details := none },
         [.getRound rid, .audioCheck rid])) := by
  constructor
  · intro h
    simp [roundTranscribePOST, roundTryBody, h]
  · intro r h ha
    simp [roundTranscribePOST, roundTryBody, h, ha]

/-- C6 amended-claim witness at concrete inputs. -/
theorem guard_failures_before_side_effects_witness :
    roundTranscribePOST envNoRound "rX" =
      (.err 404 { error := "Round not found", details := none }, [.getRound "rX"]) ∧
    roundTranscribePOST envNoAudio "r2" =
      (.err 404 { error := "Audio file not found. Recording may not have completed yet."
                  details := none },
       [.getRound "r2", .audioCheck "r2"]) :=
  ⟨(guard_failures_before_side_effects envNoRound "rX").1 rfl,
   (guard_failures_before_side_effects envNoAudio "r2").2 roundFrench rfl rfl⟩

/-- C8 counterexample: a concrete orchestration failure (missing API
key) yields a 500 response whose body carries the exception's stack
trace in its `details` field — internal diagnostic detail is returned to
the caller, contradicting `message only`. -/
theorem error_response_includes_stack_cex :
    (roundTranscribePOST envNoApiKey "r1").1 = .err 500 bodyNoApiKey ∧
    bodyNoApiKey.details ≠ none :=
  ⟨rfl, by simp [bodyNoApiKey]⟩

/-- C8 (amended): every user-facing failure response carries a
structured error message; guard failures (404/400) carry the message
only, but every 500 orchestration failure additionally carries the
exception's stack trace in the body's `details` field, so internal
diagnostic detail is included in the response returned to the caller. -/
theorem error_responses_carry_message_and_stack :
    (∀ env rid s body, (roundTranscribePOST env rid).1 = .err s body →
      (s = 500 ∧
        body.details = some ("Error: " ++ body.error ++ "\n    at POST (route.ts)")) ∨
      (s = 404 ∧ body.details = none)) ∧
    (∀ env s body, (genericTranscribePOST env).1 = .err s body →
      (s = 500 ∧
        body.details = some ("Error: " ++ body.error ++ "\n    at POST (route.ts)")) ∨
      (s = 400 ∧ body.details = none)) := by
  constructor
  · intro env rid s body h
    unfold roundTranscribePOST at h
    rcases hb : roundTryBody env rid with ⟨res, effs⟩
    rw [hb] at h
    cases res with
    | ok resp =>
      simp at h
      rcases roundTryBody_ok_shape env rid resp effs hb with h4 | h4 | ⟨d, h4⟩ <;>
        rw [h4] at h
      · injection h with h5 h6
        subst h5; subst h6
        exact Or.inr ⟨rfl, rfl⟩
      · injection h with h5 h6
        subst h5; subst h6
        exact Or.inr ⟨rfl, rfl⟩
      · injection h
    | error err =>
      obtain ⟨m, rfl⟩ := roundTryBody_error_shape env rid err effs hb
      simp [mkJsError] at h
      obtain ⟨rfl, rfl⟩ := h
      exact Or.inl ⟨rfl, rfl⟩
  · intro env s body h
    unfold genericTranscribePOST at h
    rcases hb : genericTryBody env with ⟨res, effs⟩
    rw [hb] at h
    cases res with
    | ok resp =>
      simp at h
      rcases genericTryBody_ok_shape env resp effs hb with h4 | h4 | ⟨rid, d, h4⟩ <;>
        rw [h4] at h
      · injection h with h5 h6
        subst h5; subst h6
        exact Or.inr ⟨rfl, rfl⟩
      · injection h with h5 h6
        subst h5; subst h6
        exact Or.inr ⟨rfl, rfl⟩
      · injection h
    | error err =>
      obtain ⟨m, rfl⟩ := genericTryBody_error_shape env err effs hb
      simp [mkJsError] at h
      obtain ⟨rfl, rfl⟩ := h
      exact Or.inl ⟨rfl, rfl⟩

/-- C8 amended-claim witness: the missing-API-key failure instantiates
the 500 disjunct — the body's `details` is the stack trace built from
its own `error` message. -/
theorem error_responses_carry_message_and_stack_witness :
    (500 = 500 ∧
      bodyNoApiKey.details =
        some ("Error: " ++ bodyNoApiKey.error ++ "\n    at POST (route.ts)")) ∨
    (500 = 404 ∧ bodyNoApiKey.details = none) :=
  error_responses_carry_message_and_stack.1 envNoApiKey "r1" 500 bodyNoApiKey rfl

/-- A `providerCall` effect of the whole round handler originates in the
try body (the catch block adds only status updates and log lines). -/
lemma roundPOST_providerCall_of_mem (env : RoundEnv) (rid : String) (l : String) :
    Effect.providerCall l ∈ (roundTranscribePOST env rid).2 →
    Effect.providerCall l ∈ (roundTryBody env rid).2 := by
  intro hm
  unfold roundTranscribePOST at hm
  rcases hb : roundTryBody env rid with ⟨res, effs⟩
  rw [hb] at hm
  cases res with
  | ok resp => simpa using hm
  | error err =>
    repeat' split at hm
    all_goals simp_all

/-- A `providerCall` of the round-route try body carries
`round.language || 'en'`. -/
lemma roundTryBody_providerCall (env : RoundEnv) (rid : String) (r : Round) (l : String)
    (h : env.round = some r) :
    Effect.providerCall l ∈ (roundTryBody env rid).2 → l = (r.language).getD "en" := by
  intro hm
  cases hp : env.audioPath with
  | none => simp [roundTryBody, h, hp] at hm
  | some p =>
    simp only [roundTryBody, h, hp] at hm
    exact roundOrchestrate_providerCall env rid p _ l hm

/-- A `providerCall` effect of the whole generic handler originates in
its try body. -/
lemma genericPOST_providerCall_of_mem (env : GenericEnv) (l : String) :
    Effect.providerCall l ∈ (genericTranscribePOST env).2 →
    Effect.providerCall l ∈ (genericTryBody env).2 := by
  intro hm
  unfold genericTranscribePOST at hm
  rcases hb : genericTryBody env with ⟨res, effs⟩
  rw [hb] at hm
  cases res with
  | ok resp => simpa using hm
  | error err =>
    repeat' split at hm
    all_goals simp_all

/-- C10: the generic endpoint always invokes the diarization provider
with language fixed to `'en'` (it never reads any round), while the
round-specific endpoint invokes it with the round's stored language,
falling back to `'en'` exactly when the round has no language set. -/
theorem provider_language_selection :
    (∀ env l, Effect.providerCall l ∈ (genericTranscribePOST env).2 → l = "en") ∧
    (∀ env rid r l, env.round = some r →
      Effect.providerCall l ∈ (roundTranscribePOST env rid).2 →
        l = (r.language).getD "en") := by
  constructor
  · intro env l hm
    exact genericTryBody_providerCall env l (genericPOST_providerCall_of_mem env l hm)
  · intro env rid r l h hm
    exact roundTryBody_providerCall env rid r l h (roundPOST_providerCall_of_mem env rid l hm)

/-- C10 witness: the generic handler's provider call at a concrete
environment uses `'en'`; the round handler's provider call for the
French round uses `'fr'`. -/
theorem provider_language_selection_witness :
    ("en" = "en") ∧ ("fr" = (roundFrench.language).getD "en") :=
  ⟨provider_language_selection.1 genEnvOk "en" (by decide),
   provider_language_selection.2 envFrenchOk "r2" roundFrench "fr" rfl (by decide)⟩

/-- C3: the round-specific handler does what the claim says — every 500
failure trace contains exactly one attempted `updateRound` setting
status ERROR, and the response returned to the caller does not depend
on whether that best-effort update itself fails (it is logged only,
never re-raised).  The generic handler does not: its catch block's
`request.clone().formData()` always throws because the try block
already consumed the request body, so its `updateRound(..., ERROR)`
call is unreachable — every 500 failure trace of the generic route
contains zero ERROR status update attempts and carries the logged
warning instead, as evaluated at the concrete missing-API-key input. -/
theorem error_path_error_update_divergence :
    (∀ env rid body, (roundTranscribePOST env rid).1 = .err 500 body →
      ((roundTranscribePOST env rid).2).countP setsStatusError = 1) ∧
    (∀ env rid b, (roundTranscribePOST { env with errorUpdateFails := b } rid).1 =
      (roundTranscribePOST env rid).1) ∧
    (∀ env body, (genericTranscribePOST env).1 = .err 500 body →
      ((genericTranscribePOST env).2).countP setsStatusError = 0) ∧
    (genericTranscribePOST genEnvNoKey).1 = .err 500 bodyNoApiKey ∧
    Effect.logWarn "Failed to update round status" ∈
      (genericTranscribePOST genEnvNoKey).2 := by
  refine ⟨?_, ?_, ?_, ?_, ?_⟩
  · intro env rid body h
    unfold roundTranscribePOST at h ⊢
    rcases hb : roundTryBody env rid with ⟨res, effs⟩
    rw [hb] at h
    have hcount : effs.countP setsStatusError = 0 := by
      have h0 := roundTryBody_no_error_update env rid
      rw [hb] at h0
      exact h0
    cases res with
    | ok resp =>
      simp at h
      rcases roundTryBody_ok_shape env rid resp effs hb with h4 | h4 | ⟨d, h4⟩ <;>
        rw [h4] at h
      · injection h with h5 h6
        exact absurd h5 (by decide)
      · injection h with h5 h6
        exact absurd h5 (by decide)
      · injection h
    | error err =>
      repeat' split
      all_goals simp_all [List.countP_append, setsStatusError]
  · intro env rid b
    have ht : roundTryBody { env with errorUpdateFails := b } rid =
        roundTryBody env rid := rfl
    unfold roundTranscribePOST
    rw [ht]
    rcases hb : roundTryBody env rid with ⟨res, effs⟩
    cases res <;> rfl
  · intro env body h
    unfold genericTranscribePOST at h ⊢
    rcases hb : genericTryBody env with ⟨res, effs⟩
    rw [hb] at h
    have hcount : effs.countP setsStatusError = 0 := by
      have h0 := genericTryBody_no_error_update env
      rw [hb] at h0
      exact h0
    cases res with
    | ok resp =>
      simp at h
      rcases genericTryBody_ok_shape env resp effs hb with h4 | h4 | ⟨rid, d, h4⟩ <;>
        rw [h4] at h
      all_goals injection h
    | error err =>
      simp [List.countP_append, hcount, setsStatusError]
  · rfl
  · decide

/-- C3 witness: at the concrete missing-API-key inputs the round
handler's 500 trace contains exactly one ERROR status update attempt
while the generic handler's 500 trace contains none. -/
theorem error_path_error_update_divergence_witness :
    ((roundTranscribePOST envNoApiKey "r1").2).countP setsStatusError = 1 ∧
    ((genericTranscribePOST genEnvNoKey).2).countP setsStatusError = 0 :=
  ⟨error_path_error_update_divergence.1 envNoApiKey "r1" bodyNoApiKey rfl,
   error_path_error_update_divergence.2.2.1 genEnvNoKey bodyNoApiKey rfl⟩

/-- C4: a provider response lacking the top-level results container is
rejected before any use — the handler throws `Invalid response from
Deepgram API` (yielding the 500 response), nothing is ever saved, the
ERROR status transition is performed, and every round update on the
whole path writes the status field only, so the round's existing audio
reference is left unchanged. -/
theorem malformed_provider_response_rejected (env : RoundEnv) (rid : String)
    (r : Round) (p : String) (raw : RawTranscript)
    (h1 : env.round = some r) (h2 : env.audioPath = some p)
    (h3 : env.procUpdateError = none) (h4 : env.readFileError = none)
    (h5 : env.apiKeyPresent = true) (h6 : env.provider = .ok raw)
    (h7 : raw.results = none) (h8 : env.errorUpdateFails = false) :
    (roundTranscribePOST env rid).1 =
      .err 500 { error := "Invalid response from Deepgram API"
                 details := some (mkJsError "Invalid response from Deepgram API").stack } ∧
    (∀ e ∈ (roundTranscribePOST env rid).2, isSaveTranscription e = false) ∧
    Effect.updateRound rid { status := some .error } ∈ (roundTranscribePOST env rid).2 ∧
    (∀ i q, Effect.updateRound i q ∈ (roundTranscribePOST env rid).2 →
      q.audio_file = none) := by
  have hpost : roundTranscribePOST env rid =
      (.err 500 { error := "Invalid response from Deepgram API"
                  details := some (mkJsError "Invalid response from Deepgram API").stack },
       [.getRound rid, .audioCheck rid, .updateRound rid { status := some .processing },
        .readAudio p, .providerCall ((r.language).getD "en"),
        .updateRound rid { status := some .error }]) := by
    simp [roundTranscribePOST, roundTryBody, roundOrchestrate, mkJsError,
          h1, h2, h3, h4, h5, h6, h7, h8]
  rw [hpost]
  refine ⟨rfl, ?_, ?_, ?_⟩
  · intro e he
    simp only [List.mem_cons, List.not_mem_nil, or_false] at he
    rcases he with rfl | rfl | rfl | rfl | rfl | rfl <;> rfl
  · simp
  · intro i q hm
    simp only [List.mem_cons, List.not_mem_nil, or_false] at hm
    rcases hm with hm | hm | hm | hm | hm | hm <;>
      first
        | (injection hm with hi hq; rw [hq])
        | (injection hm)

/-- C4 witness: the concrete malformed-provider environment instantiates
the theorem — 500 response, ERROR transition present. -/
theorem malformed_provider_response_rejected_witness :
    (roundTranscribePOST envMalformed "r1").1 =
      .err 500 { error := "Invalid response from Deepgram API"
                 details := some (mkJsError "Invalid response from Deepgram API").stack } ∧
    Effect.updateRound "r1" { status := some .error } ∈
      (roundTranscribePOST envMalformed "r1").2 :=
  ⟨(malformed_provider_response_rejected envMalformed "r1" roundProcessing
      "/audio/r1.webm" rawNoResults rfl rfl rfl rfl rfl rfl rfl rfl).1,
   (malformed_provider_response_rejected envMalformed "r1" roundProcessing
      "/audio/r1.webm" rawNoResults rfl rfl rfl rfl rfl rfl rfl rfl).2.2.1⟩

/-- Inversion of the round-route try body on the success path: a
success payload can only arise from the full orchestration trace, whose
saved ontology and COMPLETED patch carry the payload's statistics. -/
lemma roundTryBody_success_inversion (env : RoundEnv) (rid : String)
    (resp : ApiResponse) (effs : List Effect) (rid2 : String)
    (d : DeliberationOntology) (msg : String)
    (hb : roundTryBody env rid = (.ok resp, effs))
    (hresp : resp = .ok rid2 d msg) :
    rid2 = rid ∧ msg = "Transcription completed successfully" ∧
    ∃ raw p lang,
      createDeliberationOntology raw (basename p) lang = .ok d ∧
      effs = [.getRound rid, .audioCheck rid,
              .updateRound rid { status := some .processing },
              .readAudio p, .providerCall lang, .saveTranscription rid raw d,
              .updateRound rid
                { status := some .completed
                  audio_file := some p
                  transcription_file := some (rid ++ "_deliberation.json")
                  duration_seconds := some d.statistics.duration_seconds
                  speaker_count := some d.statistics.total_speakers }] := by
  subst hresp
  unfold roundTryBody roundOrchestrate at hb
  repeat' split at hb
  all_goals injection hb with h1 h2
  all_goals first
    | (injection h1 with h1
       injection h1)
    | injection h1
  subst_vars
  refine ⟨rfl, rfl, _, _, _, by assumption, by simp⟩

/-- Inversion of the generic-route try body on the success path. -/
lemma genericTryBody_success_inversion (env : GenericEnv)
    (resp : ApiResponse) (effs : List Effect) (rid : String)
    (d : DeliberationOntology) (msg : String)
    (hb : genericTryBody env = (.ok resp, effs))
    (hresp : resp = .ok rid d msg) :
    env.roundId = some rid ∧ msg = "Transcription completed successfully" ∧
    ∃ raw,
      createDeliberationOntology raw env.filename "en" = .ok d ∧
      effs = [.updateRound rid { status := some .processing }, .providerCall "en",
              .saveTranscription rid raw d,
              .updateRound rid
                { status := some .completed
                  transcription_file := some (rid ++ "_deliberation.json")
                  duration_seconds := some d.statistics.duration_seconds
                  speaker_count := some d.statistics.total_speakers }] := by
  subst hresp
  unfold genericTryBody genericOrchestrate at hb
  repeat' split at hb
  all_goals injection hb with h1 h2
  all_goals first
    | (injection h1 with h1
       injection h1)
    | injection h1
  subst_vars
  refine ⟨by assumption, rfl, _, by assumption, by simp⟩

/-- C2: whenever a transcription handler returns the success payload,
its full effect trace shows the orchestration order — the single
`saveTranscription` persisting both the raw response and the built
ontology strictly precedes the single COMPLETED status update, and that
update's `duration_seconds`/`speaker_count` are exactly the built
ontology's `statistics.duration_seconds`/`statistics.total_speakers`
(the ontology the builder returned, not recomputed from anything
else). -/
theorem success_persists_then_completes_with_builder_stats :
    (∀ env rid rid2 d msg, (roundTranscribePOST env rid).1 = .ok rid2 d msg →
      ∃ raw p lang,
        createDeliberationOntology raw (basename p) lang = .ok d ∧
        (roundTranscribePOST env rid).2 =
          [.getRound rid, .audioCheck rid,
           .updateRound rid { status := some .processing },
           .readAudio p, .providerCall lang, .saveTranscription rid raw d,
           .updateRound rid
             { status := some .completed
               audio_file := some p
               transcription_file := some (rid ++ "_deliberation.json")
               duration_seconds := some d.statistics.duration_seconds
               speaker_count := some d.statistics.total_speakers }]) ∧
    (∀ env rid d msg, (genericTranscribePOST env).1 = .ok rid d msg →
      ∃ raw,
        createDeliberationOntology raw env.filename "en" = .ok d ∧
        (genericTranscribePOST env).2 =
          [.updateRound rid { status := some .processing }, .providerCall "en",
           .saveTranscription rid raw d,
           .updateRound rid
             { status := some .completed
               transcription_file := some (rid ++ "_deliberation.json")
               duration_seconds := some d.statistics.duration_seconds
               speaker_count := some d.statistics.total_speakers }]) := by
  constructor
  · intro env rid rid2 d msg h
    unfold roundTranscribePOST at h ⊢
    rcases hb : roundTryBody env rid with ⟨res, effs⟩
    rw [hb] at h
    cases res with
    | error err => simp at h
    | ok resp =>
      simp at h
      obtain ⟨hrid, hmsg, raw, p, lang, hbuild, htrace⟩ :=
        roundTryBody_success_inversion env rid resp effs rid2 d msg hb h
      subst hrid
      exact ⟨raw, p, lang, hbuild, htrace⟩
  · intro env rid d msg h
    unfold genericTranscribePOST at h ⊢
    rcases hb : genericTryBody env with ⟨res, effs⟩
    rw [hb] at h
    cases res with
    | error err => simp at h
    | ok resp =>
      simp at h
      obtain ⟨hrid, hmsg, raw, hbuild, htrace⟩ :=
        genericTryBody_success_inversion env resp effs rid d msg hb h
      exact ⟨raw, hbuild, htrace⟩

/-- C2 witness: the concrete all-success environment instantiates the
theorem — save happens before the COMPLETED update carrying the built
statistics. -/
theorem success_persists_then_completes_with_builder_stats_witness :
    ∃ raw p lang,
      createDeliberationOntology raw (basename p) lang = .ok ontologyEmpty ∧
      (roundTranscribePOST envProcessingOk "r1").2 =
        [.getRound "r1", .audioCheck "r1",
         .updateRound "r1" { status := some .processing },
         .readAudio p, .providerCall lang, .saveTranscription "r1" raw ontologyEmpty,
         .updateRound "r1"
           { status := some .completed
             audio_file := some p
             transcription_file := some ("r1" ++ "_deliberation.json")
             duration_seconds := some ontologyEmpty.statistics.duration_seconds
             speaker_count := some ontologyEmpty.statistics.total_speakers }] :=
  success_persists_then_completes_with_builder_stats.1 envProcessingOk "r1" "r1"
    ontologyEmpty "Transcription completed successfully" (by decide)

end Deepgram
